import Mathlib

/-!
Shallow embedding of the simplefin-bridge-exporter core
(`cmd/main-modified.go`: package `main`, package `exporter`, package `config`).

The credential-resolution state machine of `parseConfig` is embedded as a pure
function over an explicit `World` (external Kubernetes secret store, local
filesystem, HTTP transport).  External library calls are modelled as follows:

* `base64.StdEncoding.DecodeString` is embedded as `base64Decode` (standard
  alphabet, mandatory padding; the Go decoder additionally skips `\r`/`\n`,
  which no claim exercises).
* `net/url.Parse` followed by `URL.String()` is embedded as `urlParse`,
  succeeding exactly on control-character-free input and returning the input
  unchanged (the round-trip is the identity on the well-formed URLs the
  claims exercise; Go's parse failures are modelled by the
  control-character case).
* `strconv.ParseFloat(s, 32)` is embedded as `parseFloat` over exact
  rationals (plain decimal and exponent forms; Go additionally accepts
  `Inf`/`NaN`/hex forms, and rounds to float32 — no claim depends on either).
* The HTTP transport (`http.DefaultClient.Do` plus `io.ReadAll`) is the
  `World.http` field: `none` models a transport or body-read error, and
  `some (status, body)` a completed exchange.
* The Kubernetes secret API (`Get`/`Update`) is modelled by the `World.store`
  association list together with `World.readFails` / `World.writeFails`
  fault flags; `rest.InClusterConfig`/`NewForConfig` failure is the
  `World.k8sInitFails` flag.
* `simplefin.NewSimplefinClient` (external package, spec §2 "Account
  Client", an external collaborator) is modelled as always succeeding; the
  resolved credential is the URL handed to it.
* Command-line flag parsing and the update-interval duration parse are out of
  scope (spec §1) and are modelled as already done: the `Config` structure
  holds the parsed flag values.
-/

namespace Simplefin

/-- Flag values consumed by `parseConfig` (cmd/main-modified.go lines 33-42). -/
structure Config where
  setupToken : String
  accessUrl : String
  accessUrlVolatileFile : String
  secretName : String
  secretNamespace : String
deriving DecidableEq

/-- A Kubernetes secret: `Data map[string][]byte`, which may be `nil`
(modelled as `none`) or an association list of entries. -/
structure Secret where
  data : Option (List (String × String))
deriving DecidableEq

/-- The external secret store: records addressed by (namespace, name). -/
abbrev Store := List ((String × String) × Secret)

/-- Local filesystem plus a fault flag for `os.Remove`. -/
structure Fs where
  files : String → Option String
  removeFails : String → Bool

/-- External world state threaded through the resolver. -/
structure World where
  store : Store
  readFails : String × String → Bool
  writeFails : String × String → Bool
  fs : Fs
  http : String → Option (Nat × String)
  k8sInitFails : Bool

/-- Lookup of a secret by (namespace, name). -/
def lookupSecret (store : Store) (ns name : String) : Option Secret :=
  (store.find? (fun e => decide (e.1 = (ns, name)))).map (fun e => e.2)

/-- `secret.Data[key]` with the `exists` check. -/
def secretField (s : Secret) (key : String) : Option String :=
  match s.data with
  | none => none
  | some kvs => (kvs.find? (fun e => decide (e.1 = key))).map (fun e => e.2)

/-- Set a key in an association list, replacing the first occurrence. -/
def assocSet : List (String × String) → String → String → List (String × String)
  | [], key, v => [(key, v)]
  | e :: rest, key, v =>
    if e.1 = key then (key, v) :: rest else e :: assocSet rest key v

/-- `secret.Data[k] = v`, allocating the map when `Data == nil`
(cmd/main-modified.go lines 104-108). -/
def secretSetData (s : Secret) (key v : String) : Secret :=
  match s.data with
  | none => ⟨some [(key, v)]⟩
  | some kvs => ⟨some (assocSet kvs key v)⟩

/-- Replace the secret stored under `key` (the caller has already fetched it,
so the key is present). -/
def storeSet : Store → (String × String) → Secret → Store
  | [], _, _ => []
  | e :: rest, key, s =>
    if e.1 = key then (key, s) :: rest else e :: storeSet rest key s

/-- Character-list prefix test (model of `strings.HasPrefix`). -/
def hasPrefixChars : List Char → List Char → Bool
  | [], _ => true
  | _ :: _, [] => false
  | p :: ps, c :: cs => decide (p = c) && hasPrefixChars ps cs

/-- `strings.HasPrefix(s, "http://") || strings.HasPrefix(s, "https://")`
(cmd/main-modified.go line 81). -/
def hasUrlScheme (s : String) : Bool :=
  hasPrefixChars "http://".data s.data || hasPrefixChars "https://".data s.data

/-- The guard of cmd/main-modified.go line 142:
`secretName != "" && secretNamespace != ""`. -/
abbrev storeConfigured (cfg : Config) : Prop :=
  cfg.secretName ≠ "" ∧ cfg.secretNamespace ≠ ""

/-- `getAccessUrlFromSecret` (cmd/main-modified.go lines 67-91).  The Go
function returns `(string, error)`; every return site carries a `nil` error,
which the pair's second component records. -/
def getAccessUrlFromSecret (cfg : Config) (w : World) : String × Option String :=
  if cfg.secretName = "" ∨ cfg.secretNamespace = "" then ("", none)
  else if w.readFails (cfg.secretNamespace, cfg.secretName) then ("", none)
  else
    match lookupSecret w.store cfg.secretNamespace cfg.secretName with
    | none => ("", none)
    | some sec =>
      match secretField sec "access_url" with
      | none => ("", none)
      | some v => if hasUrlScheme v then (v, none) else ("", none)

/-- `saveAccessUrlToSecret` (cmd/main-modified.go lines 93-117), returning the
updated store on success. -/
def saveAccessUrlToSecret (cfg : Config) (w : World) (accessUrl : String) :
    Except String Store :=
  if cfg.secretName = "" ∨ cfg.secretNamespace = "" then .ok w.store
  else if w.readFails (cfg.secretNamespace, cfg.secretName) then
    .error "failed to get secret for update"
  else
    match lookupSecret w.store cfg.secretNamespace cfg.secretName with
    | none => .error "failed to get secret for update"
    | some sec =>
      if w.writeFails (cfg.secretNamespace, cfg.secretName) then
        .error "failed to update secret with access URL"
      else
        .ok (storeSet w.store (cfg.secretNamespace, cfg.secretName)
              (secretSetData sec "access_url" accessUrl))

/-- Value of a standard-base64 alphabet character. -/
def b64Index (c : Char) : Option Nat :=
  if 'A' ≤ c ∧ c ≤ 'Z' then some (c.toNat - 65)
  else if 'a' ≤ c ∧ c ≤ 'z' then some (c.toNat - 97 + 26)
  else if '0' ≤ c ∧ c ≤ '9' then some (c.toNat - 48 + 52)
  else if c = '+' then some 62
  else if c = '/' then some 63
  else none

/-- Decode padded standard-base64 quads to bytes (as characters). -/
def b64DecodeGroups : List Char → Option (List Char)
  | [] => some []
  | c1 :: c2 :: c3 :: c4 :: rest =>
    match b64Index c1, b64Index c2 with
    | some n1, some n2 =>
      if c3 = '=' then
        if c4 = '=' ∧ rest = [] then some [Char.ofNat (n1 * 4 + n2 / 16)]
        else none
      else
        match b64Index c3 with
        | some n3 =>
          if c4 = '=' then
            if rest = [] then
              some [Char.ofNat (n1 * 4 + n2 / 16),
                    Char.ofNat ((n2 % 16) * 16 + n3 / 4)]
            else none
          else
            match b64Index c4, b64DecodeGroups rest with
            | some n4, some tail =>
              some (Char.ofNat (n1 * 4 + n2 / 16) ::
                    Char.ofNat ((n2 % 16) * 16 + n3 / 4) ::
                    Char.ofNat ((n3 % 4) * 64 + n4) :: tail)
            | _, _ => none
        | none => none
    | _, _ => none
  | _ => none

/-- Model of `base64.StdEncoding.DecodeString` (cmd/main-modified.go
line 220). -/
def base64Decode (s : String) : Option String :=
  (b64DecodeGroups s.data).map (fun cs => String.mk cs)

/-- Model of `net/url.Parse` + `URL.String()` (cmd/main-modified.go
lines 408-418): succeeds on control-character-free input, identity
round-trip. -/
def urlParse (s : String) : Option String :=
  if s.data.all (fun c => decide (32 ≤ c.toNat ∧ c.toNat ≠ 127)) then some s
  else none

/-- The three failure points of `config.ReadAndDeleteAccessURLFile`. -/
inductive FileErr where
  | readError
  | parseError
  | removeError
deriving DecidableEq

/-- `config.ReadAndDeleteAccessURLFile` (cmd/main-modified.go lines 402-419),
returning the resulting filesystem as well (on failure the filesystem is
unchanged: a read or parse error precedes the delete, and a failed
`os.Remove` leaves the file in place). -/
def ReadAndDeleteAccessURLFile (fs : Fs) (filepath : String) :
    Except FileErr String × Fs :=
  match fs.files filepath with
  | none => (.error .readError, fs)
  | some data =>
    match urlParse data with
    | none => (.error .parseError, fs)
    | some parsed =>
      if fs.removeFails filepath then (.error .removeError, fs)
      else (.ok parsed,
            { fs with files := fun p => if p = filepath then none else fs.files p })

/-- Failures of `createClientAndGetAccessUrl`. -/
inductive TokenErr where
  | decodeError
  | transportError
  | claimFailed (status : Nat) (body : String)
deriving DecidableEq

/-- `createClientAndGetAccessUrl` (cmd/main-modified.go lines 217-248):
decode the setup token, POST to the claim URL, require HTTP 200, return the
full response body. -/
def createClientAndGetAccessUrl (http : String → Option (Nat × String))
    (setupToken : String) : Except TokenErr String :=
  match base64Decode setupToken with
  | none => .error .decodeError
  | some claimUrl =>
    match http claimUrl with
    | none => .error .transportError
    | some (status, body) =>
      if status ≠ 200 then .error (.claimFailed status body)
      else .ok body

/-- The fatal exits of `parseConfig` covered by the model. -/
inductive Fatal where
  | k8sInitFailure
  | fileError (e : FileErr)
  | tokenError (e : TokenErr)
  | noCredentialSource
deriving DecidableEq

/-- The `accessUrl` variable after the secret-store step of `parseConfig`
(cmd/main-modified.go lines 142-156): the stored value overrides the flag
only when non-empty. -/
def storePhase (cfg : Config) (w : World) : String :=
  if storeConfigured cfg then
    if (getAccessUrlFromSecret cfg w).1 ≠ "" then (getAccessUrlFromSecret cfg w).1
    else cfg.accessUrl
  else cfg.accessUrl

/-- `parseConfig` from the no-source check onwards (cmd/main-modified.go
lines 165-200), given the `accessUrl` value after the store and file steps:
explicit URL wins, otherwise one token exchange, then a best-effort store
save. -/
def resolveAfterFile (cfg : Config) (w : World) (accessUrl1 : String) :
    Except Fatal String × World :=
  if accessUrl1 = "" ∧ cfg.setupToken = "" then (.error .noCredentialSource, w)
  else if accessUrl1 ≠ "" then (.ok accessUrl1, w)
  else
    match createClientAndGetAccessUrl w.http cfg.setupToken with
    | .error e => (.error (.tokenError e), w)
    | .ok newAccessUrl =>
      if storeConfigured cfg then
        match saveAccessUrlToSecret cfg w newAccessUrl with
        | .error _ => (.ok newAccessUrl, w)
        | .ok store2 => (.ok newAccessUrl, { w with store := store2 })
      else (.ok newAccessUrl, w)

/-- The volatile-file step of `parseConfig` (cmd/main-modified.go
lines 158-163): when a file path is configured the file is consumed
unconditionally and overwrites `accessUrl`; any file error is fatal. -/
def resolveAfterStore (cfg : Config) (w : World) (accessUrl0 : String) :
    Except Fatal String × World :=
  if cfg.accessUrlVolatileFile ≠ "" then
    match ReadAndDeleteAccessURLFile w.fs cfg.accessUrlVolatileFile with
    | (.error e, fs2) => (.error (.fileError e), { w with fs := fs2 })
    | (.ok u, fs2) => resolveAfterFile cfg { w with fs := fs2 } u
  else resolveAfterFile cfg w accessUrl0

/-- The credential-resolution portion of `parseConfig` (cmd/main-modified.go
lines 141-204), as a function from the flag configuration and the external
world to a fatal error or the resolved access credential, together with the
final world state. -/
def resolveCredential (cfg : Config) (w : World) : Except Fatal String × World :=
  if storeConfigured cfg ∧ w.k8sInitFails then (.error .k8sInitFailure, w)
  else resolveAfterStore cfg w (storePhase cfg w)

/-- Outcome of process startup: either the process exited fatally (before the
metrics HTTP server was started) or it is serving with a resolved
credential. -/
inductive StartOutcome where
  | exited (f : Fatal)
  | serving (credential : String) (w : World)

/-- `main` up to `startExporterServer` (cmd/main-modified.go lines 271-275):
`parseConfig` runs first; a fatal exit there means the metrics server is
never started. -/
def mainStartup (cfg : Config) (w : World) : StartOutcome :=
  match resolveCredential cfg w with
  | (.error f, _) => .exited f
  | (.ok c, w2) => .serving c w2

/-- Whether the metrics HTTP server was started in the given outcome. -/
def serverStarted : StartOutcome → Bool
  | .exited _ => false
  | .serving _ _ => true

/-! ## Exporter (package `exporter` and package `config` mapping policy) -/

/-- Digit test for the decimal parser. -/
def isDigitChar (c : Char) : Bool := decide ('0' ≤ c ∧ c ≤ '9')

/-- Value of a digit string. -/
def digitsVal (cs : List Char) : Nat :=
  cs.foldl (fun n c => n * 10 + (c.toNat - 48)) 0

/-- Mantissa of a decimal literal: digits with an optional single dot, at
least one digit overall. -/
def parseMantissa (cs : List Char) : Option Rat :=
  let intPart := cs.takeWhile isDigitChar
  match cs.dropWhile isDigitChar with
  | [] => if intPart.isEmpty then none else some (digitsVal intPart : Rat)
  | '.' :: frac =>
    if frac.all isDigitChar ∧ ¬(intPart.isEmpty ∧ frac.isEmpty) then
      some ((digitsVal intPart : Rat) +
            (digitsVal frac : Rat) / ((10 : Rat) ^ frac.length))
    else none
  | _ => none

/-- Optionally signed decimal exponent. -/
def parseExpPart (cs : List Char) : Option Int :=
  match cs with
  | '+' :: ds => if ds ≠ [] ∧ ds.all isDigitChar then some (digitsVal ds : Int) else none
  | '-' :: ds => if ds ≠ [] ∧ ds.all isDigitChar then some (-(digitsVal ds : Int)) else none
  | ds => if ds ≠ [] ∧ ds.all isDigitChar then some (digitsVal ds : Int) else none

/-- Model of `strconv.ParseFloat(s, 32)` (cmd/main-modified.go lines 370,
379) over exact rationals: optional sign, decimal mantissa, optional
exponent. -/
def parseFloat (s : String) : Option Rat :=
  let signBody : Rat × List Char :=
    match s.data with
    | '+' :: rest => (1, rest)
    | '-' :: rest => (-1, rest)
    | _ => (1, s.data)
  let notExp : Char → Bool := fun c => decide (c ≠ 'e' ∧ c ≠ 'E')
  match parseMantissa (signBody.2.takeWhile notExp) with
  | none => none
  | some mv =>
    match signBody.2.dropWhile notExp with
    | [] => some (signBody.1 * mv)
    | _ :: expChars =>
      match parseExpPart expChars with
      | none => none
      | some e => some (signBody.1 * mv * (10 : Rat) ^ e)

/-- `config.AccountMapping` (cmd/main-modified.go lines 422-425). -/
structure AccountMapping where
  accountID : String
  customName : String
deriving DecidableEq

/-- `config.AccountMappingConfig` (cmd/main-modified.go lines 428-431). -/
structure AccountMappingConfig where
  mappings : List AccountMapping
  ignoreList : List String
deriving DecidableEq

/-- `AccountMappingConfig.GetAccountNameMapping` (cmd/main-modified.go
lines 456-463): first matching mapping wins, otherwise the original name. -/
def AccountMappingConfig.GetAccountNameMapping (config : AccountMappingConfig)
    (accountID originalName : String) : String :=
  match config.mappings.find? (fun m => decide (m.accountID = accountID)) with
  | some m => m.customName
  | none => originalName

/-- `AccountMappingConfig.IsAccountIgnored` (cmd/main-modified.go
lines 466-473): linear scan of the ignore list. -/
def AccountMappingConfig.IsAccountIgnored (config : AccountMappingConfig)
    (accountID : String) : Bool :=
  config.ignoreList.any (fun ignoredID => decide (ignoredID = accountID))

/-- `simplefin.Org`, restricted to the field read by `Export`
(`Org.Domain`); the `simplefin` package itself is outside the repository
sources, the field set is the one `Export` consumes and spec §3
"AccountRecord" describes. -/
structure Org where
  domain : String
deriving DecidableEq

/-- `simplefin.Account` restricted to the fields `Export` consumes
(ID, Name, Org, Balance, AvailableBalance, Currency, BalanceDate); spec §3
"AccountRecord". -/
structure Account where
  id : String
  name : String
  org : Org
  balance : String
  availableBalance : String
  currency : String
  balanceDate : Int
deriving DecidableEq

/-- `simplefin.Accounts` as consumed by `Export`: the ordered record list. -/
structure Accounts where
  accounts : List Account
deriving DecidableEq

/-- Label tuple (domain, account_name, account_id, currency). -/
abbrev Label4 := String × String × String × String

/-- Label tuple (domain, account_name, account_id). -/
abbrev Label3 := String × String × String

/-- The three gauge families registered by `NewExporter`
(cmd/main-modified.go lines 327-351), each as a partial map from its label
tuple to the current value. -/
@[ext]
structure GaugeState where
  balances : Label4 → Option Rat
  availableBalances : Label4 → Option Rat
  lastUpdated : Label3 → Option Rat

/-- `GaugeVec.WithLabelValues(...).Set(v)`: unconditional overwrite of the
series for one label tuple. -/
def gaugeSet {α : Type} [DecidableEq α] (g : α → Option Rat) (k : α) (v : Rat) :
    α → Option Rat :=
  fun k2 => if k2 = k then some v else g k2

/-- Per-record log lines emitted by `Export`. -/
inductive LogEvent where
  | balanceParseError (domain name id : String)
  | availableBalanceParseError (domain name id : String)
deriving DecidableEq

/-- The body of `Export`'s loop for one account (cmd/main-modified.go
lines 360-389): skip ignored accounts, parse the two balances independently
(logging an error and skipping only the affected gauge on failure), always
set `last_updated`. -/
def exportAccount (m : AccountMappingConfig) (a : Account) (g : GaugeState) :
    GaugeState × List LogEvent :=
  if m.IsAccountIgnored a.id then (g, [])
  else
    let accountName := m.GetAccountNameMapping a.id a.name
    let key4 : Label4 := (a.org.domain, accountName, a.id, a.currency)
    let key3 : Label3 := (a.org.domain, accountName, a.id)
    let step1 : GaugeState × List LogEvent :=
      match parseFloat a.balance with
      | none => (g, [LogEvent.balanceParseError a.org.domain a.name a.id])
      | some bal =>
        ({ g with balances := gaugeSet g.balances key4 bal }, [])
    let g1 := step1.1
    let step2 : GaugeState × List LogEvent :=
      match parseFloat a.availableBalance with
      | none => (g1, [LogEvent.availableBalanceParseError a.org.domain a.name a.id])
      | some availBal =>
        ({ g1 with availableBalances := gaugeSet g1.availableBalances key4 availBal }, [])
    let g2 := step2.1
    ({ g2 with lastUpdated := gaugeSet g2.lastUpdated key3 ((a.balanceDate : Int) : Rat) },
     step1.2 ++ step2.2)

/-- `Export`'s loop over the snapshot (cmd/main-modified.go lines 360-390),
collecting the logged events. -/
def exportLoop (m : AccountMappingConfig) :
    List Account → GaugeState → GaugeState × List LogEvent
  | [], g => (g, [])
  | a :: rest, g =>
    let p := exportAccount m a g
    let q := exportLoop m rest p.1
    (q.1, p.2 ++ q.2)

/-- `Exporter.Export` (cmd/main-modified.go lines 359-392): iterate the
snapshot and return `nil` (modelled as the always-`none` error component). -/
def Export (m : AccountMappingConfig) (snapshot : Accounts) (g : GaugeState) :
    GaugeState × List LogEvent × Option String :=
  ((exportLoop m snapshot.accounts g).1, (exportLoop m snapshot.accounts g).2, none)

/-! ## Concrete instances used by counterexamples and witnesses -/

/-- Store and volatile file both configured, no explicit URL, no token. -/
def exCfgStoreFile : Config :=
  { setupToken := "", accessUrl := "", accessUrlVolatileFile := "/f",
    secretName := "s", secretNamespace := "n" }

/-- A world whose store already holds a valid access URL and whose volatile
file holds a different one. -/
def exWorldStoreFile : World :=
  { store := [(("n", "s"), ⟨some [("access_url", "https://store.example/x")]⟩)],
    readFails := fun _ => false, writeFails := fun _ => false,
    fs := { files := fun p => if p = "/f" then some "https://file.example/y" else none,
            removeFails := fun _ => false },
    http := fun _ => none, k8sInitFails := false }

/-- Store configured, setup token `base64("http://c")`, nothing else. -/
def exCfgToken : Config :=
  { setupToken := "aHR0cDovL2M=", accessUrl := "", accessUrlVolatileFile := "",
    secretName := "s", secretNamespace := "n" }

/-- Empty store (the named secret does not exist); the claim URL answers 200
with the access URL as body. -/
def exWorldTokenNoSecret : World :=
  { store := [], readFails := fun _ => false, writeFails := fun _ => false,
    fs := { files := fun _ => none, removeFails := fun _ => false },
    http := fun u => if u = "http://c" then some (200, "https://access.example/u") else none,
    k8sInitFails := false }

/-- Store holding the named secret with a sentinel (non-URL) `access_url`
value; the claim URL answers 200. -/
def exWorldTokenSecret : World :=
  { store := [(("n", "s"), ⟨some [("access_url", "pending")]⟩)],
    readFails := fun _ => false, writeFails := fun _ => false,
    fs := { files := fun _ => none, removeFails := fun _ => false },
    http := fun u => if u = "http://c" then some (200, "https://access.example/u") else none,
    k8sInitFails := false }

/-- World whose claim URL answers 403 with an error body. -/
def exWorldToken403 : World :=
  { store := [(("n", "s"), ⟨some [("access_url", "pending")]⟩)],
    readFails := fun _ => false, writeFails := fun _ => false,
    fs := { files := fun _ => none, removeFails := fun _ => false },
    http := fun u => if u = "http://c" then some (403, "token already claimed") else none,
    k8sInitFails := false }

/-- Volatile file only, holding a URL. -/
def exCfgFileOnly : Config :=
  { setupToken := "", accessUrl := "", accessUrlVolatileFile := "/f",
    secretName := "", secretNamespace := "" }

/-- World with just the volatile file present. -/
def exWorldFileOnly : World :=
  { store := [], readFails := fun _ => false, writeFails := fun _ => false,
    fs := { files := fun p => if p = "/f" then some "https://file.example/y" else none,
            removeFails := fun _ => false },
    http := fun _ => none, k8sInitFails := false }

/-- Completely empty configuration: no URL, no token, no file, no store. -/
def exCfgEmpty : Config :=
  { setupToken := "", accessUrl := "", accessUrlVolatileFile := "",
    secretName := "", secretNamespace := "" }

/-- Empty world. -/
def exWorldEmpty : World :=
  { store := [], readFails := fun _ => false, writeFails := fun _ => false,
    fs := { files := fun _ => none, removeFails := fun _ => false },
    http := fun _ => none, k8sInitFails := false }

/-- Mapping policy with one rename (A1 → Checking) and one ignored id (A2). -/
def exPolicy : AccountMappingConfig :=
  { mappings := [{ accountID := "A1", customName := "Checking" }],
    ignoreList := ["A2"] }

/-- Account with an unparseable balance and a parseable available balance. -/
def exAccountBadBalance : Account :=
  { id := "A1", name := "Orig", org := { domain := "bank.example" },
    balance := "ERROR", availableBalance := "90.00", currency := "USD",
    balanceDate := 1700000000 }

/-- An ignored account. -/
def exAccountIgnored : Account :=
  { id := "A2", name := "Hidden", org := { domain := "bank.example" },
    balance := "1.00", availableBalance := "2.00", currency := "USD",
    balanceDate := 1700000000 }

/-- The empty gauge state (freshly registered gauge vectors). -/
def emptyGauges : GaugeState :=
  { balances := fun _ => none, availableBalances := fun _ => none,
    lastUpdated := fun _ => none }

/-! ## Write semantics of the export loop

The value (if any) each account writes to each gauge series, used to state
that `exportLoop` is a pure overwrite determined by the policy and the
snapshot alone. -/

/-- The balance value the account writes at label `k` (none when ignored,
unparseable, or a different label). -/
def balanceWriteOf (m : AccountMappingConfig) (a : Account) (k : Label4) : Option Rat :=
  if m.IsAccountIgnored a.id then none
  else
    match parseFloat a.balance with
    | none => none
    | some bal =>
      if k = (a.org.domain, m.GetAccountNameMapping a.id a.name, a.id, a.currency) then
        some bal
      else none

/-- The available-balance value the account writes at label `k`. -/
def availWriteOf (m : AccountMappingConfig) (a : Account) (k : Label4) : Option Rat :=
  if m.IsAccountIgnored a.id then none
  else
    match parseFloat a.availableBalance with
    | none => none
    | some availBal =>
      if k = (a.org.domain, m.GetAccountNameMapping a.id a.name, a.id, a.currency) then
        some availBal
      else none

/-- The last-updated value the account writes at label `k` (written whenever
the account is not ignored). -/
def lastUpdWriteOf (m : AccountMappingConfig) (a : Account) (k : Label3) : Option Rat :=
  if m.IsAccountIgnored a.id then none
  else
    if k = (a.org.domain, m.GetAccountNameMapping a.id a.name, a.id) then
      some ((a.balanceDate : Int) : Rat)
    else none

/-- Last balance write of a snapshot at label `k` (later records win). -/
def lastBalanceWrite (m : AccountMappingConfig) : List Account → Label4 → Option Rat
  | [], _ => none
  | a :: rest, k =>
    match lastBalanceWrite m rest k with
    | some v => some v
    | none => balanceWriteOf m a k

/-- Last available-balance write of a snapshot at label `k`. -/
def lastAvailWrite (m : AccountMappingConfig) : List Account → Label4 → Option Rat
  | [], _ => none
  | a :: rest, k =>
    match lastAvailWrite m rest k with
    | some v => some v
    | none => availWriteOf m a k

/-- Last last-updated write of a snapshot at label `k`. -/
def lastUpdWrite (m : AccountMappingConfig) : List Account → Label3 → Option Rat
  | [], _ => none
  | a :: rest, k =>
    match lastUpdWrite m rest k with
    | some v => some v
    | none => lastUpdWriteOf m a k

/-! ## Helper lemmas -/

/-- A successful `ReadAndDeleteAccessURLFile` removes the file. -/
theorem readAndDelete_ok_files (fs : Fs) (p u : String)
    (h : (ReadAndDeleteAccessURLFile fs p).1 = .ok u) :
    (ReadAndDeleteAccessURLFile fs p).2.files p = none := by
  cases hf : fs.files p with
  | none => simp [ReadAndDeleteAccessURLFile, hf] at h
  | some data =>
    cases hp : urlParse data with
    | none => simp [ReadAndDeleteAccessURLFile, hf, hp] at h
    | some parsed =>
      by_cases hr : fs.removeFails p = true
      · simp [ReadAndDeleteAccessURLFile, hf, hp, hr] at h
      · simp [ReadAndDeleteAccessURLFile, hf, hp, hr]

/-- Reading a missing file fails without touching the filesystem. -/
theorem readAndDelete_missing (fs : Fs) (p : String) (h : fs.files p = none) :
    ReadAndDeleteAccessURLFile fs p = (.error .readError, fs) := by
  unfold ReadAndDeleteAccessURLFile
  rw [h]

/-- `resolveAfterFile` never touches the filesystem or the Kubernetes-init
flag: past the file step only the store can change. -/
theorem resolveAfterFile_preserve (cfg : Config) (w : World) (u : String) :
    (resolveAfterFile cfg w u).2.fs = w.fs ∧
    (resolveAfterFile cfg w u).2.k8sInitFails = w.k8sInitFails := by
  unfold resolveAfterFile
  constructor <;> (repeat' split) <;> rfl

/-- When the k8s client initializes, `resolveCredential` is the post-store
continuation at the store-phase value. -/
theorem resolveCredential_eq (cfg : Config) (w : World)
    (hk : ¬(storeConfigured cfg ∧ w.k8sInitFails)) :
    resolveCredential cfg w = resolveAfterStore cfg w (storePhase cfg w) := by
  unfold resolveCredential
  rw [if_neg hk]

/-! ## Claim C1 -/

/-- Claim C1 is false on the code: with both a store reference and a volatile
file configured, the store holds the valid access URL
`https://store.example/x`, yet resolution returns the file's value
`https://file.example/y` and the file has been consumed (deleted) — the file
branch of `parseConfig` (line 158) runs regardless of what the store
yielded. -/
theorem C1_counterexample :
    (getAccessUrlFromSecret exCfgStoreFile exWorldStoreFile).1 = "https://store.example/x" ∧
    (resolveCredential exCfgStoreFile exWorldStoreFile).1.toOption = some "https://file.example/y" ∧
    (resolveCredential exCfgStoreFile exWorldStoreFile).2.fs.files "/f" = none := by
  refine ⟨by decide, by decide, by decide⟩

/-- Claim C1 (amended): when a store reference and a volatile file path are
both configured, the store is read first, but the volatile file is consumed
unconditionally; whenever the file is successfully consumed with a non-empty
URL, the resolved AccessCredential is the file's value — overriding any valid
store value — and the file is deleted. -/
theorem C1_amended (cfg : Config) (w : World) (u : String)
    (_hcfg : storeConfigured cfg)
    (hk : w.k8sInitFails = false)
    (hfile : cfg.accessUrlVolatileFile ≠ "")
    (hread : (ReadAndDeleteAccessURLFile w.fs cfg.accessUrlVolatileFile).1 = .ok u)
    (hu : u ≠ "") :
    resolveCredential cfg w =
      (.ok u, { w with fs := (ReadAndDeleteAccessURLFile w.fs cfg.accessUrlVolatileFile).2 }) ∧
    (ReadAndDeleteAccessURLFile w.fs cfg.accessUrlVolatileFile).2.files
      cfg.accessUrlVolatileFile = none := by
  refine ⟨?_, readAndDelete_ok_files _ _ _ hread⟩
  rw [resolveCredential_eq cfg w (by simp [hk])]
  unfold resolveAfterStore
  rw [if_pos hfile]
  cases hR : ReadAndDeleteAccessURLFile w.fs cfg.accessUrlVolatileFile with
  | mk r fs2 =>
    rw [hR] at hread
    simp only at hread
    subst hread
    simp only [hR]
    unfold resolveAfterFile
    rw [if_neg (fun hand => hu hand.1), if_pos hu]

/-- Witness for `C1_amended` at the concrete store-plus-file input. -/
theorem C1_witness :
    storeConfigured exCfgStoreFile ∧
    (resolveCredential exCfgStoreFile exWorldStoreFile =
      (.ok "https://file.example/y",
        { exWorldStoreFile with
            fs := (ReadAndDeleteAccessURLFile exWorldStoreFile.fs
                    exCfgStoreFile.accessUrlVolatileFile).2 }) ∧
     (ReadAndDeleteAccessURLFile exWorldStoreFile.fs
        exCfgStoreFile.accessUrlVolatileFile).2.files
        exCfgStoreFile.accessUrlVolatileFile = none) :=
  ⟨by decide,
   C1_amended exCfgStoreFile exWorldStoreFile "https://file.example/y"
     (by decide) (by decide) (by decide) (by rfl) (by decide)⟩

/-! ## Claim C2 -/

/-- Setting a field in a secret makes that field hold the written value. -/
theorem secretField_setData (s : Secret) (k v : String) :
    secretField (secretSetData s k v) k = some v := by
  cases s with
  | mk data =>
    cases data with
    | none => simp [secretSetData, secretField]
    | some kvs =>
      simp only [secretSetData, secretField]
      induction kvs with
      | nil => simp [assocSet]
      | cons e rest ih =>
        by_cases he : e.1 = k
        · simp [assocSet, he]
        · simp only [assocSet, if_neg he, List.find?, decide_eq_false he]
          exact ih

/-- Claim C2 is false on the code: with a store reference configured but the
named secret absent from the store, a valid setup token whose claim URL
answers 200 resolves to the response body, yet the save-back fails (the Go
code `Get`s the secret and errors out instead of creating it), so the store
does not end up holding the access URL — there is no record at all. -/
theorem C2_counterexample :
    (resolveCredential exCfgToken exWorldTokenNoSecret).1.toOption =
      some "https://access.example/u" ∧
    lookupSecret (resolveCredential exCfgToken exWorldTokenNoSecret).2.store "n" "s" =
      none := by
  refine ⟨by decide, by decide⟩

/-- Claim C2 (amended): whenever credential resolution reaches the
setup-token source (no explicit URL, no volatile file, and the store yielded
nothing) and the token is valid standard base64 decoding to a claim URL whose
POST returns HTTP 200, resolution yields exactly the full response body as
the AccessCredential; and if a store reference is configured, the named
secret exists, and the store read and write both succeed, then after
resolution the store record's `access_url` field holds that exact response
body. -/
theorem C2_amended (cfg : Config) (w : World) (claimUrl body : String) (sec : Secret)
    (hcfg : storeConfigured cfg)
    (hk : w.k8sInitFails = false)
    (hstore0 : (getAccessUrlFromSecret cfg w).1 = "")
    (hurl : cfg.accessUrl = "")
    (hfile : cfg.accessUrlVolatileFile = "")
    (htok : cfg.setupToken ≠ "")
    (hdec : base64Decode cfg.setupToken = some claimUrl)
    (hhttp : w.http claimUrl = some (200, body))
    (hrf : w.readFails (cfg.secretNamespace, cfg.secretName) = false)
    (hsec : lookupSecret w.store cfg.secretNamespace cfg.secretName = some sec)
    (hwf : w.writeFails (cfg.secretNamespace, cfg.secretName) = false) :
    resolveCredential cfg w =
      (.ok body,
       { w with store := storeSet w.store (cfg.secretNamespace, cfg.secretName)
                  (secretSetData sec "access_url" body) }) ∧
    secretField (secretSetData sec "access_url" body) "access_url" = some body := by
  refine ⟨?_, secretField_setData sec "access_url" body⟩
  have hclient : createClientAndGetAccessUrl w.http cfg.setupToken = .ok body := by
    simp only [createClientAndGetAccessUrl, hdec, hhttp]
    simp
  have hsave : saveAccessUrlToSecret cfg w body =
      .ok (storeSet w.store (cfg.secretNamespace, cfg.secretName)
            (secretSetData sec "access_url" body)) := by
    simp only [saveAccessUrlToSecret, hsec, hrf, hwf]
    rw [if_neg (by simp [hcfg.1, hcfg.2])]
    simp
  rw [resolveCredential_eq cfg w (by simp [hk])]
  unfold resolveAfterStore
  rw [if_neg (by simp [hfile])]
  have hphase : storePhase cfg w = "" := by
    unfold storePhase
    rw [if_pos hcfg, if_neg (by simp [hstore0]), hurl]
  rw [hphase]
  unfold resolveAfterFile
  rw [if_neg (fun hand => htok hand.2), if_neg (by simp)]
  simp only [hclient]
  rw [if_pos hcfg]
  simp only [hsave]

/-- Witness for `C2_amended`: store configured with the secret present (its
`access_url` holding a non-URL sentinel, so the store yields nothing), token
`base64("http://c")`, claim URL answering 200. -/
theorem C2_witness :
    storeConfigured exCfgToken ∧
    (resolveCredential exCfgToken exWorldTokenSecret =
      (.ok "https://access.example/u",
       { exWorldTokenSecret with
           store := storeSet exWorldTokenSecret.store ("n", "s")
             (secretSetData ⟨some [("access_url", "pending")]⟩ "access_url"
               "https://access.example/u") }) ∧
     secretField (secretSetData ⟨some [("access_url", "pending")]⟩ "access_url"
         "https://access.example/u") "access_url" = some "https://access.example/u") :=
  ⟨by decide,
   C2_amended exCfgToken exWorldTokenSecret "http://c" "https://access.example/u"
     ⟨some [("access_url", "pending")]⟩
     (by decide) (by decide) (by decide) (by decide) (by decide) (by decide)
     (by rfl) (by rfl) (by decide) (by decide) (by decide)⟩

/-! ## Claim C3 -/

/-- Claim C3: whenever the token exchange answers with a status other than
200, credential resolution fails fatally with an error carrying the status
code and the response body, the external world — in particular the credential
store — is left untouched, and startup exits before the metrics server is
started. -/
theorem C3_non200_fatal (cfg : Config) (w : World) (claimUrl body : String) (status : Nat)
    (hk : ¬(storeConfigured cfg ∧ w.k8sInitFails))
    (hphase : storePhase cfg w = "")
    (hfile : cfg.accessUrlVolatileFile = "")
    (htok : cfg.setupToken ≠ "")
    (hdec : base64Decode cfg.setupToken = some claimUrl)
    (hhttp : w.http claimUrl = some (status, body))
    (hstatus : status ≠ 200) :
    resolveCredential cfg w = (.error (.tokenError (.claimFailed status body)), w) ∧
    (resolveCredential cfg w).2.store = w.store ∧
    mainStartup cfg w = .exited (.tokenError (.claimFailed status body)) := by
  have hclient : createClientAndGetAccessUrl w.http cfg.setupToken =
      .error (.claimFailed status body) := by
    simp only [createClientAndGetAccessUrl, hdec, hhttp]
    rw [if_pos hstatus]
  have hmain : resolveCredential cfg w =
      (.error (.tokenError (.claimFailed status body)), w) := by
    rw [resolveCredential_eq cfg w hk]
    unfold resolveAfterStore
    rw [if_neg (by simp [hfile]), hphase]
    unfold resolveAfterFile
    rw [if_neg (fun hand => htok hand.2), if_neg (by simp)]
    simp only [hclient]
  refine ⟨hmain, by rw [hmain], ?_⟩
  unfold mainStartup
  rw [hmain]

/-- Witness for `C3_non200_fatal`: claim URL answering 403 with body
`token already claimed`. -/
theorem C3_witness :
    ¬(storeConfigured exCfgToken ∧ exWorldToken403.k8sInitFails) ∧
    (resolveCredential exCfgToken exWorldToken403 =
      (.error (.tokenError (.claimFailed 403 "token already claimed")), exWorldToken403) ∧
     (resolveCredential exCfgToken exWorldToken403).2.store = exWorldToken403.store ∧
     mainStartup exCfgToken exWorldToken403 =
       .exited (.tokenError (.claimFailed 403 "token already claimed"))) :=
  ⟨by decide,
   C3_non200_fatal exCfgToken exWorldToken403 "http://c" "token already claimed" 403
     (by decide) (by decide) (by decide) (by decide) (by rfl) (by rfl) (by decide)⟩

/-! ## Claim C4 -/

/-- Claim C4: with a store reference configured, a store record whose
`access_url` field is missing, or present but lacking an `http://`/`https://`
scheme, as well as a store read error or a missing record, makes the store
read return the empty value with a `nil` error, and resolution proceeds to
the remaining sources (the explicit-URL flag value flows on unchanged)
instead of aborting. -/
theorem C4_invalid_store_value (cfg : Config) (w : World)
    (hcfg : storeConfigured cfg)
    (hk : w.k8sInitFails = false)
    (hcase :
      w.readFails (cfg.secretNamespace, cfg.secretName) = true ∨
      lookupSecret w.store cfg.secretNamespace cfg.secretName = none ∨
      (∃ sec, lookupSecret w.store cfg.secretNamespace cfg.secretName = some sec ∧
        (secretField sec "access_url" = none ∨
         ∃ v, secretField sec "access_url" = some v ∧ hasUrlScheme v = false))) :
    getAccessUrlFromSecret cfg w = ("", none) ∧
    resolveCredential cfg w = resolveAfterStore cfg w cfg.accessUrl := by
  have hget : getAccessUrlFromSecret cfg w = ("", none) := by
    unfold getAccessUrlFromSecret
    rw [if_neg (by simp [hcfg.1, hcfg.2])]
    rcases hcase with hr | hmiss | ⟨sec, hsec, hfield⟩
    · rw [if_pos hr]
    · cases hx : w.readFails (cfg.secretNamespace, cfg.secretName) <;> simp [hmiss]
    · rcases hfield with hnone | ⟨v, hv, hscheme⟩
      · cases hx : w.readFails (cfg.secretNamespace, cfg.secretName) <;> simp [hsec, hnone]
      · cases hx : w.readFails (cfg.secretNamespace, cfg.secretName) <;> simp [hsec, hv, hscheme]
  refine ⟨hget, ?_⟩
  rw [resolveCredential_eq cfg w (by simp [hk])]
  unfold storePhase
  rw [if_pos hcfg, hget]
  simp

/-- Witness for `C4_invalid_store_value`: the secret holds the sentinel
string `pending`, which has no URL scheme. -/
theorem C4_witness :
    storeConfigured exCfgToken ∧
    (getAccessUrlFromSecret exCfgToken exWorldTokenSecret = ("", none) ∧
     resolveCredential exCfgToken exWorldTokenSecret =
       resolveAfterStore exCfgToken exWorldTokenSecret exCfgToken.accessUrl) :=
  ⟨by decide,
   C4_invalid_store_value exCfgToken exWorldTokenSecret (by decide) (by decide)
     (Or.inr (Or.inr ⟨⟨some [("access_url", "pending")]⟩, by decide,
       Or.inr ⟨"pending", by decide, by decide⟩⟩))⟩

/-! ## Claim C5 -/

/-- Claim C5: volatile-file consumption is exactly-once.  With a volatile
file path configured, (a) whenever resolution succeeds, the file has been
deleted and a second resolution over the resulting world fails fatally with
the file-read (file-not-found) error; (b) any failure of the
read/parse/delete step makes resolution fail fatally with that file error
instead of returning a credential. -/
theorem C5_file_exactly_once (cfg : Config) (w : World)
    (hfile : cfg.accessUrlVolatileFile ≠ "")
    (hk : ¬(storeConfigured cfg ∧ w.k8sInitFails)) :
    (∀ c, (resolveCredential cfg w).1 = .ok c →
        (resolveCredential cfg w).2.fs.files cfg.accessUrlVolatileFile = none ∧
        (resolveCredential cfg ((resolveCredential cfg w).2)).1 =
          .error (.fileError .readError)) ∧
    (∀ e, (ReadAndDeleteAccessURLFile w.fs cfg.accessUrlVolatileFile).1 = .error e →
        (resolveCredential cfg w).1 = .error (.fileError e)) := by
  have hres : resolveCredential cfg w = resolveAfterStore cfg w (storePhase cfg w) :=
    resolveCredential_eq cfg w hk
  unfold resolveAfterStore at hres
  rw [if_pos hfile] at hres
  cases hR : ReadAndDeleteAccessURLFile w.fs cfg.accessUrlVolatileFile with
  | mk r fs2 =>
    rw [hR] at hres
    cases r with
    | error e0 =>
      constructor
      · intro c hc
        rw [hres] at hc
        simp at hc
      · intro e he
        simp at he
        subst he
        rw [hres]
    | ok u =>
      have hdel : fs2.files cfg.accessUrlVolatileFile = none := by
        have hd := readAndDelete_ok_files w.fs cfg.accessUrlVolatileFile u
          (by rw [hR])
        rw [hR] at hd
        exact hd
      constructor
      · intro c hc
        have hpres := resolveAfterFile_preserve cfg { w with fs := fs2 } u
        have hfs : (resolveCredential cfg w).2.fs = fs2 := by
          rw [hres]; exact hpres.1
        have hk8s : (resolveCredential cfg w).2.k8sInitFails = w.k8sInitFails := by
          rw [hres]; exact hpres.2
        refine ⟨by rw [hfs]; exact hdel, ?_⟩
        have hk2 : ¬(storeConfigured cfg ∧ (resolveCredential cfg w).2.k8sInitFails) := by
          rw [hk8s]; exact hk
        rw [resolveCredential_eq cfg _ hk2]
        unfold resolveAfterStore
        rw [if_pos hfile, readAndDelete_missing _ _ (by rw [hfs]; exact hdel)]
      · intro e he
        simp at he

/-- Witness for `C5_file_exactly_once` at the file-only configuration. -/
theorem C5_witness :
    exCfgFileOnly.accessUrlVolatileFile ≠ "" ∧
    ((∀ c, (resolveCredential exCfgFileOnly exWorldFileOnly).1 = .ok c →
        (resolveCredential exCfgFileOnly exWorldFileOnly).2.fs.files
          exCfgFileOnly.accessUrlVolatileFile = none ∧
        (resolveCredential exCfgFileOnly
          ((resolveCredential exCfgFileOnly exWorldFileOnly).2)).1 =
            .error (.fileError .readError)) ∧
     (∀ e, (ReadAndDeleteAccessURLFile exWorldFileOnly.fs
              exCfgFileOnly.accessUrlVolatileFile).1 = .error e →
        (resolveCredential exCfgFileOnly exWorldFileOnly).1 =
          .error (.fileError e))) :=
  ⟨by decide,
   C5_file_exactly_once exCfgFileOnly exWorldFileOnly (by decide)
     (fun hand => absurd hand.1.1 (by decide))⟩

/-! ## Claim C9 -/

/-- Claim C9: with no explicit URL and no setup token, and every other
configured source yielding nothing (store unconfigured or yielding no value,
volatile file unconfigured or containing the empty string), startup exits
with the fatal `Access URL or Setup Token required` error, strictly before
the metrics HTTP server is started. -/
theorem C9_no_source_fatal (cfg : Config) (w : World)
    (hurl : cfg.accessUrl = "")
    (htok : cfg.setupToken = "")
    (hstore : storeConfigured cfg →
      (w.k8sInitFails = false ∧ (getAccessUrlFromSecret cfg w).1 = ""))
    (hfile : cfg.accessUrlVolatileFile = "" ∨
      (ReadAndDeleteAccessURLFile w.fs cfg.accessUrlVolatileFile).1 = .ok "") :
    mainStartup cfg w = .exited .noCredentialSource ∧
    serverStarted (mainStartup cfg w) = false := by
  have hk : ¬(storeConfigured cfg ∧ w.k8sInitFails) := by
    intro hand
    have hfalse := (hstore hand.1).1
    rw [hfalse] at hand
    exact Bool.false_ne_true hand.2
  have hphase : storePhase cfg w = "" := by
    unfold storePhase
    by_cases hc : storeConfigured cfg
    · rw [if_pos hc, if_neg (by simp [(hstore hc).2]), hurl]
    · rw [if_neg hc, hurl]
  have hres : ∃ w2, resolveCredential cfg w = (.error .noCredentialSource, w2) := by
    rw [resolveCredential_eq cfg w hk]
    unfold resolveAfterStore
    by_cases hp : cfg.accessUrlVolatileFile ≠ ""
    · rw [if_pos hp]
      rcases hfile with hfe | hfo
      · exact absurd hfe hp
      · cases hR : ReadAndDeleteAccessURLFile w.fs cfg.accessUrlVolatileFile with
        | mk r fs2 =>
          rw [hR] at hfo
          simp at hfo
          subst hfo
          refine ⟨{ w with fs := fs2 }, ?_⟩
          show resolveAfterFile cfg { w with fs := fs2 } "" = _
          unfold resolveAfterFile
          rw [if_pos ⟨rfl, htok⟩]
    · rw [if_neg hp, hphase]
      refine ⟨w, ?_⟩
      unfold resolveAfterFile
      rw [if_pos ⟨rfl, htok⟩]
  obtain ⟨w2, hw⟩ := hres
  constructor
  · unfold mainStartup
    rw [hw]
  · unfold mainStartup
    rw [hw]
    rfl

/-- Witness for `C9_no_source_fatal` at the empty configuration. -/
theorem C9_witness :
    exCfgEmpty.accessUrl = "" ∧ exCfgEmpty.setupToken = "" ∧
    (mainStartup exCfgEmpty exWorldEmpty = .exited .noCredentialSource ∧
     serverStarted (mainStartup exCfgEmpty exWorldEmpty) = false) :=
  ⟨by decide, by decide,
   C9_no_source_fatal exCfgEmpty exWorldEmpty (by decide) (by decide)
     (by decide) (Or.inl (by decide))⟩

/-! ## Export-loop write characterization -/

/-- One account's effect on the balance family is the pure overwrite
`balanceWriteOf`. -/
theorem exportAccount_balances (m : AccountMappingConfig) (a : Account)
    (g : GaugeState) (k : Label4) :
    (exportAccount m a g).1.balances k =
      match balanceWriteOf m a k with
      | some v => some v
      | none => g.balances k := by
  unfold exportAccount balanceWriteOf
  cases hig : m.IsAccountIgnored a.id
  · cases hbal : parseFloat a.balance
    · cases hav : parseFloat a.availableBalance <;> simp [gaugeSet]
    · cases hav : parseFloat a.availableBalance <;>
        by_cases hk2 : k = (a.org.domain, m.GetAccountNameMapping a.id a.name,
                            a.id, a.currency) <;>
          simp [gaugeSet, hk2]
  · simp

/-- One account's effect on the available-balance family is the pure
overwrite `availWriteOf`. -/
theorem exportAccount_avail (m : AccountMappingConfig) (a : Account)
    (g : GaugeState) (k : Label4) :
    (exportAccount m a g).1.availableBalances k =
      match availWriteOf m a k with
      | some v => some v
      | none => g.availableBalances k := by
  unfold exportAccount availWriteOf
  cases hig : m.IsAccountIgnored a.id
  · cases hbal : parseFloat a.balance <;>
      cases hav : parseFloat a.availableBalance <;>
        by_cases hk2 : k = (a.org.domain, m.GetAccountNameMapping a.id a.name,
                            a.id, a.currency) <;>
          simp [gaugeSet, hk2]
  · simp

/-- One account's effect on the last-updated family is the pure overwrite
`lastUpdWriteOf`. -/
theorem exportAccount_lastUpd (m : AccountMappingConfig) (a : Account)
    (g : GaugeState) (k : Label3) :
    (exportAccount m a g).1.lastUpdated k =
      match lastUpdWriteOf m a k with
      | some v => some v
      | none => g.lastUpdated k := by
  unfold exportAccount lastUpdWriteOf
  cases hig : m.IsAccountIgnored a.id
  · cases hbal : parseFloat a.balance <;>
      cases hav : parseFloat a.availableBalance <;>
        by_cases hk3 : k = (a.org.domain, m.GetAccountNameMapping a.id a.name, a.id) <;>
          simp [gaugeSet, hk3]
  · simp

/-- The export loop's balance family is the last balance write at each label,
falling back to the prior gauge value. -/
theorem exportLoop_balances (m : AccountMappingConfig) (accs : List Account)
    (g : GaugeState) (k : Label4) :
    (exportLoop m accs g).1.balances k =
      match lastBalanceWrite m accs k with
      | some v => some v
      | none => g.balances k := by
  induction accs generalizing g with
  | nil => rfl
  | cons a rest ih =>
    show (exportLoop m rest (exportAccount m a g).1).1.balances k = _
    rw [ih]
    cases hrest : lastBalanceWrite m rest k
    · simp [lastBalanceWrite, hrest, exportAccount_balances]
    · simp [lastBalanceWrite, hrest]

/-- The export loop's available-balance family is the last available-balance
write at each label, falling back to the prior gauge value. -/
theorem exportLoop_avail (m : AccountMappingConfig) (accs : List Account)
    (g : GaugeState) (k : Label4) :
    (exportLoop m accs g).1.availableBalances k =
      match lastAvailWrite m accs k with
      | some v => some v
      | none => g.availableBalances k := by
  induction accs generalizing g with
  | nil => rfl
  | cons a rest ih =>
    show (exportLoop m rest (exportAccount m a g).1).1.availableBalances k = _
    rw [ih]
    cases hrest : lastAvailWrite m rest k
    · simp [lastAvailWrite, hrest, exportAccount_avail]
    · simp [lastAvailWrite, hrest]

/-- The export loop's last-updated family is the last last-updated write at
each label, falling back to the prior gauge value. -/
theorem exportLoop_lastUpd (m : AccountMappingConfig) (accs : List Account)
    (g : GaugeState) (k : Label3) :
    (exportLoop m accs g).1.lastUpdated k =
      match lastUpdWrite m accs k with
      | some v => some v
      | none => g.lastUpdated k := by
  induction accs generalizing g with
  | nil => rfl
  | cons a rest ih =>
    show (exportLoop m rest (exportAccount m a g).1).1.lastUpdated k = _
    rw [ih]
    cases hrest : lastUpdWrite m rest k
    · simp [lastUpdWrite, hrest, exportAccount_lastUpd]
    · simp [lastUpdWrite, hrest]

/-! ## Claim C6 -/

/-- Claim C6: export is idempotent — running `Export` twice on the same
snapshot leaves every gauge family (balance, available balance, last
updated) with exactly the labeled values of a single run; every gauge set is
an unconditional overwrite determined by the snapshot, never an
accumulation. -/
theorem C6_export_idempotent (m : AccountMappingConfig) (snapshot : Accounts)
    (g : GaugeState) :
    (Export m snapshot (Export m snapshot g).1).1 = (Export m snapshot g).1 := by
  simp only [Export]
  apply GaugeState.ext
  · funext k
    rw [exportLoop_balances m snapshot.accounts ((exportLoop m snapshot.accounts g).1) k,
        exportLoop_balances m snapshot.accounts g k]
    cases lastBalanceWrite m snapshot.accounts k <;> rfl
  · funext k
    rw [exportLoop_avail m snapshot.accounts ((exportLoop m snapshot.accounts g).1) k,
        exportLoop_avail m snapshot.accounts g k]
    cases lastAvailWrite m snapshot.accounts k <;> rfl
  · funext k
    rw [exportLoop_lastUpd m snapshot.accounts ((exportLoop m snapshot.accounts g).1) k,
        exportLoop_lastUpd m snapshot.accounts g k]
    cases lastUpdWrite m snapshot.accounts k <;> rfl

/-! ## Claim C7 -/

/-- Claim C7: a record whose identifier is in the policy's ignore list
touches no gauge at all and produces no error: processing it is the identity
on the gauge state with an empty log, and dropping it from any snapshot
leaves the export result unchanged. -/
theorem C7_ignored_untouched (m : AccountMappingConfig) (a : Account)
    (rest : List Account) (g : GaugeState)
    (hig : m.IsAccountIgnored a.id = true) :
    exportAccount m a g = (g, []) ∧
    exportLoop m (a :: rest) g = exportLoop m rest g := by
  have h1 : exportAccount m a g = (g, []) := by
    unfold exportAccount
    rw [if_pos hig]
  exact ⟨h1, by simp [exportLoop, h1]⟩

/-- Witness for `C7_ignored_untouched`: account `A2` is on the ignore
list. -/
theorem C7_witness :
    exPolicy.IsAccountIgnored exAccountIgnored.id = true ∧
    (exportAccount exPolicy exAccountIgnored emptyGauges = (emptyGauges, []) ∧
     exportLoop exPolicy [exAccountIgnored] emptyGauges =
       exportLoop exPolicy [] emptyGauges) :=
  ⟨by decide,
   C7_ignored_untouched exPolicy exAccountIgnored [] emptyGauges (by decide)⟩

/-! ## Claim C8 -/

/-- Claim C8: a non-ignored record whose balance fails to parse while its
available balance parses leaves the balance family entirely unchanged, still
sets the available-balance gauge to the parsed value and the last-updated
gauge to the record's epoch timestamp, and logs exactly one error — for the
balance field; the two parses are independent. -/
theorem C8_balance_fail_avail_ok (m : AccountMappingConfig) (a : Account)
    (g : GaugeState) (availBal : Rat)
    (hig : m.IsAccountIgnored a.id = false)
    (hbal : parseFloat a.balance = none)
    (hav : parseFloat a.availableBalance = some availBal) :
    exportAccount m a g =
      ({ balances := g.balances,
         availableBalances := gaugeSet g.availableBalances
           (a.org.domain, m.GetAccountNameMapping a.id a.name, a.id, a.currency)
           availBal,
         lastUpdated := gaugeSet g.lastUpdated
           (a.org.domain, m.GetAccountNameMapping a.id a.name, a.id)
           ((a.balanceDate : Int) : Rat) },
       [LogEvent.balanceParseError a.org.domain a.name a.id]) := by
  unfold exportAccount
  rw [if_neg (by simp [hig])]
  simp [hbal, hav]

/-- Witness for `C8_balance_fail_avail_ok`: account `A1` with balance
`ERROR` and available balance `90.00`, renamed to `Checking` by the
policy. -/
theorem C8_witness :
    exPolicy.IsAccountIgnored exAccountBadBalance.id = false ∧
    parseFloat exAccountBadBalance.balance = none ∧
    parseFloat exAccountBadBalance.availableBalance = some 90 ∧
    exportAccount exPolicy exAccountBadBalance emptyGauges =
      ({ balances := emptyGauges.balances,
         availableBalances := gaugeSet emptyGauges.availableBalances
           ("bank.example", "Checking", "A1", "USD") 90,
         lastUpdated := gaugeSet emptyGauges.lastUpdated
           ("bank.example", "Checking", "A1") ((1700000000 : Int) : Rat) },
       [LogEvent.balanceParseError "bank.example" "Orig" "A1"]) :=
  ⟨by decide, by with_unfolding_all decide, by with_unfolding_all decide,
   C8_balance_fail_avail_ok exPolicy exAccountBadBalance emptyGauges 90
     (by decide) (by with_unfolding_all decide) (by with_unfolding_all decide)⟩

/-! ## Claim C10 -/

/-- Claim C10: `Export` never returns an error — for every mapping policy,
snapshot (including ones where no balance string parses) and gauge state,
the returned error component is `nil`; per-record failures surface only in
the log and in skipped gauge updates. -/
theorem C10_export_returns_nil (m : AccountMappingConfig) (snapshot : Accounts)
    (g : GaugeState) :
    (Export m snapshot g).2.2 = none := rfl

end Simplefin
